/-
  Verification of the CityFacts frontend (src/Frontend/cityfacts-frontend/src/App.jsx).

  The source file holds two variants of the same React component:
  variant (a) uses `fetch` against `http://localhost:4050` with a single
  GET endpoint, variant (b) uses `axios` against `http://localhost:8000`
  with a two-step fallback (GET /city/{name}, then GET /city/gemini/{name}
  and POST /city when the first response carries no facts).

  The component state is embedded as `AppState`; each handler is embedded
  as a function from the pre-state and the network environment to the list
  of events (state updates and HTTP calls) it performs, in source order.
  Folding the state-update events over the pre-state yields the post-state.
-/
import Mathlib

/-- The React component state: the four `useState` hooks of `App`.
`cityFacts` is an `Option String` because variant (a) assigns
`data.facts`, which is `undefined` (modelled as `none`) when the JSON
body has no `facts` field; the initial value is the empty string. -/
structure AppState where
  cityName : String
  cityFacts : Option String
  isLoading : Bool
  error : String
  deriving Repr, DecidableEq

/-- The initial state of the component: all hooks at their `useState`
initial values. -/
def initState : AppState :=
  { cityName := "", cityFacts := some "", isLoading := false, error := "" }

/-- JavaScript truthiness of the `cityFacts` value: `undefined` and the
empty string are falsy, every other string is truthy. -/
def factsTruthy : Option String → Bool
  | none => false
  | some s => s ≠ ""

/-- JavaScript `String.prototype.trim()`: strips leading and trailing
whitespace. Embedded recursively over the character list (rather than
via core `String.trim`, whose position arithmetic does not reduce in
the kernel) so that concrete inputs evaluate. -/
def jsTrim (s : String) : String :=
  ⟨((s.data.dropWhile Char.isWhitespace).reverse.dropWhile Char.isWhitespace).reverse⟩

/-- JavaScript `a || b` for an optional string `a` against a string
fallback `b`: the fallback is used when `a` is `undefined` or empty
(falsy). Embeds `err.response?.data?.detail || "Failed to fetch city facts"`. -/
def jsOr (a : Option String) (b : String) : String :=
  match a with
  | none => b
  | some s => if s = "" then b else s

/-- The `onChange` handler of the search input: `setCityName(e.target.value)`.
Only the `cityName` hook is written. -/
def setCityName (s : AppState) (v : String) : AppState :=
  { s with cityName := v }

/-- One observable step of `handleSubmit`: either a React state update
(`setCityFacts`, `setError`, `setIsLoading`) or an HTTP call issued to
the backend. -/
inductive Ev where
  | setFactsEv (f : Option String)
  | setErrorEv (m : String)
  | setLoadingEv (b : Bool)
  | getCityCall (name : String)
  | getGeminiCall (name : String)
  | postCityCall (name : String) (facts : Option String)
  deriving Repr, DecidableEq

/-- Whether an event is an HTTP call (as opposed to a state update). -/
def Ev.isCall : Ev → Bool
  | .getCityCall _ => true
  | .getGeminiCall _ => true
  | .postCityCall _ _ => true
  | _ => false

/-- Whether an event is the POST /city write request. -/
def Ev.isPost : Ev → Bool
  | .postCityCall _ _ => true
  | _ => false

/-- Apply a single event to the state: state-update events write the
corresponding hook, HTTP calls leave the state unchanged. -/
def applyEv (s : AppState) : Ev → AppState
  | .setFactsEv f => { s with cityFacts := f }
  | .setErrorEv m => { s with error := m }
  | .setLoadingEv b => { s with isLoading := b }
  | .getCityCall _ => s
  | .getGeminiCall _ => s
  | .postCityCall _ _ => s

/-- Run a list of events from a state, left to right. -/
def runEvs (s : AppState) (evs : List Ev) : AppState :=
  evs.foldl applyEv s

/-- The outcome of the variant (a) `fetch` of `GET /city/{name}`:
either the promise resolves to a response with an `ok` flag and a JSON
body whose `facts` field may be absent, or it rejects (network failure,
or `response.json()` throwing) carrying an optional
`err.response?.data?.detail` string. -/
inductive ResponseA where
  | resp (ok : Bool) (facts : Option String)
  | reject (detail : Option String)
  deriving Repr, DecidableEq

/-- Variant (a) `handleSubmit`, embedded as the list of events it
performs in source order given the fetch outcome `r`:
validation on the trimmed city name, then `setIsLoading(true)`,
`setError("")`, the GET call, the branch on `response.ok`
(`setCityFacts(data.facts)` or `setError("Something went wrong")`),
the catch (`setError(err.response?.data?.detail || "Failed to fetch
city facts")`), and the finally `setIsLoading(false)`. -/
def handleSubmitA (s : AppState) (r : ResponseA) : List Ev :=
  if jsTrim s.cityName = "" then
    [.setErrorEv "Please enter a city name"]
  else
    [.setLoadingEv true, .setErrorEv "", .getCityCall s.cityName] ++
    (match r with
     | .resp true facts => [.setFactsEv facts]
     | .resp false _ => [.setErrorEv "Something went wrong"]
     | .reject detail => [.setErrorEv (jsOr detail "Failed to fetch city facts")]) ++
    [.setLoadingEv false]

/-- The post-state of variant (a) `handleSubmit`. -/
def submitFinalA (s : AppState) (r : ResponseA) : AppState :=
  runEvs s (handleSubmitA s r)

/-- The network environment of variant (b): the outcomes of the three
axios calls it may issue. `Except` error means the promise rejected
(axios throws on non-2xx), carrying the optional
`err.response?.data?.detail` string; success of a GET carries the
optional `data.facts` field. -/
structure EnvB where
  getResult : Except (Option String) (Option String)
  geminiResult : Except (Option String) (Option String)
  postResult : Except (Option String) Unit
  deriving Repr

/-- Variant (b) `handleSubmit`, embedded as the list of events it
performs in source order: validation, `setIsLoading(true)`,
`setError("")`, `axios.get(/city/{name})`; if `response.data.facts` is
truthy, `setCityFacts` it; otherwise `axios.get(/city/gemini/{name})`,
`setCityFacts(geminiResponse.data.facts)`, then
`axios.post(/city, {name, facts})`; any rejection is caught by
`setError(err.response?.data?.detail || "Failed to fetch city facts")`;
finally `setIsLoading(false)`. -/
def handleSubmitB (s : AppState) (env : EnvB) : List Ev :=
  if jsTrim s.cityName = "" then
    [.setErrorEv "Please enter a city name"]
  else
    [.setLoadingEv true, .setErrorEv "", .getCityCall s.cityName] ++
    (match env.getResult with
     | .error d => [.setErrorEv (jsOr d "Failed to fetch city facts")]
     | .ok facts =>
       if factsTruthy facts then
         [.setFactsEv facts]
       else
         .getGeminiCall s.cityName ::
         (match env.geminiResult with
          | .error d => [.setErrorEv (jsOr d "Failed to fetch city facts")]
          | .ok g =>
            [.setFactsEv g, .postCityCall s.cityName g] ++
            (match env.postResult with
             | .error d => [.setErrorEv (jsOr d "Failed to fetch city facts")]
             | .ok _ => []))) ++
    [.setLoadingEv false]

/-- The post-state of variant (b) `handleSubmit`. -/
def submitFinalB (s : AppState) (env : EnvB) : AppState :=
  runEvs s (handleSubmitB s env)

/-- Split a character list at each newline character, keeping empty
segments, exactly as JavaScript `split("\n")` does on the underlying
characters. On the empty list it yields one empty segment, matching
`"".split("\n") === [""]`. -/
def splitNlChars : List Char → List String
  | [] => [""]
  | c :: cs =>
    let rest := splitNlChars cs
    if c = '\n' then "" :: rest
    else
      match rest with
      | [] => [⟨[c]⟩]
      | r :: rs => ⟨c :: r.data⟩ :: rs

/-- JavaScript `s.split("\n")`: the list of newline-separated segments of
`s`, in order. Embedded recursively over the character list (rather
than via core `String.splitOn`, whose position arithmetic does not
reduce in the kernel) so that concrete inputs evaluate. -/
def jsSplitNl (s : String) : List String :=
  splitNlChars s.data

/-- The render of the facts area: `some lines` when `cityFacts` is
truthy, where `lines` is `cityFacts.split("\n")` rendered one `<p>` per
line in order; `none` when the placeholder prompt is shown instead. -/
def renderedFacts (s : AppState) : Option (List String) :=
  match s.cityFacts with
  | some f => if f ≠ "" then some (jsSplitNl f) else none
  | none => none

/-- The `facts-title` heading: `About {cityName}` when `cityFacts` is
truthy, the placeholder heading otherwise. It reads the `cityName`
hook, i.e. the current input value. -/
def factsTitle (s : AppState) : String :=
  if factsTruthy s.cityFacts then "About " ++ s.cityName
  else "City Facts Will Appear Here"

/-- The error banner: rendered exactly when `error` is non-empty
(`{error && <div className="error-message">{error}</div>}`). -/
def errorBanner (s : AppState) : Option String :=
  if s.error = "" then none else some s.error

/-- The `disabled` attribute of the search input: `disabled={isLoading}`. -/
def inputDisabled (s : AppState) : Bool :=
  s.isLoading

/-- The `disabled` attribute of the submit button: `disabled={isLoading}`. -/
def buttonDisabled (s : AppState) : Bool :=
  s.isLoading

/-- Running an appended event list is running the two parts in sequence. -/
theorem runEvs_append (s : AppState) (l1 l2 : List Ev) :
    runEvs s (l1 ++ l2) = runEvs (runEvs s l1) l2 :=
  List.foldl_append _ _ _ _

/-- When the `cityFacts` value is falsy, the facts area renders the
placeholder (no paragraphs). -/
theorem renderedFacts_none (s : AppState) (h : factsTruthy s.cityFacts = false) :
    renderedFacts s = none := by
  unfold renderedFacts
  cases hf : s.cityFacts with
  | none => rfl
  | some f =>
    rw [hf] at h
    simp only [factsTruthy, ne_eq, decide_not] at h
    simp at h
    simp [h]

/-- Variant (a) `handleSubmit` always leaves `isLoading` false when it
was false before: the validation path never touches it, every other
path ends in `setIsLoading(false)` from the `finally` block. -/
theorem submitFinalA_isLoading_false (s : AppState) (r : ResponseA)
    (h : s.isLoading = false) : (submitFinalA s r).isLoading = false := by
  unfold submitFinalA handleSubmitA
  by_cases hvalid : jsTrim s.cityName = ""
  · simp [hvalid, runEvs, applyEv, h]
  · cases r with
    | resp ok facts => cases ok <;> simp [hvalid, runEvs, applyEv]
    | reject detail => simp [hvalid, runEvs, applyEv]

/-- Variant (b) `handleSubmit` always leaves `isLoading` false when it
was false before. -/
theorem submitFinalB_isLoading_false (s : AppState) (env : EnvB)
    (h : s.isLoading = false) : (submitFinalB s env).isLoading = false := by
  unfold submitFinalB handleSubmitB
  by_cases hvalid : jsTrim s.cityName = ""
  · simp [hvalid, runEvs, applyEv, h]
  · rcases env with ⟨g, gm, p⟩
    cases g with
    | error d => simp [hvalid, runEvs, applyEv]
    | ok f =>
      cases hf : factsTruthy f with
      | true => simp [hvalid, hf, runEvs, applyEv]
      | false =>
        cases gm with
        | error d => simp [hvalid, hf, runEvs, applyEv]
        | ok gg =>
          cases p with
          | error d => simp [hvalid, hf, runEvs, applyEv]
          | ok u => simp [hvalid, hf, runEvs, applyEv]

/-- Claim C1: for every input whose trimmed city name is empty, `submit()`
(in either variant) performs exactly the single validation state update:
it sets `error` to "Please enter a city name", issues no network call,
and `isLoading` stays false. -/
theorem submit_empty_input_validates (s : AppState) (r : ResponseA) (env : EnvB)
    (hempty : jsTrim s.cityName = "") (hload : s.isLoading = false) :
    handleSubmitA s r = [.setErrorEv "Please enter a city name"] ∧
    (handleSubmitA s r).all (fun e => !e.isCall) = true ∧
    (submitFinalA s r).error = "Please enter a city name" ∧
    (submitFinalA s r).isLoading = false ∧
    handleSubmitB s env = [.setErrorEv "Please enter a city name"] ∧
    (handleSubmitB s env).all (fun e => !e.isCall) = true ∧
    (submitFinalB s env).error = "Please enter a city name" ∧
    (submitFinalB s env).isLoading = false := by
  unfold submitFinalA submitFinalB handleSubmitA handleSubmitB
  simp [hempty, hload, runEvs, applyEv, Ev.isCall]

/-- Concrete run of C1: a whitespace-only city name. -/
theorem submit_empty_input_validates_witness :
    jsTrim ({ initState with cityName := "   " } : AppState).cityName = "" ∧
    (submitFinalA { initState with cityName := "   " } (.resp true (some "x"))).error
      = "Please enter a city name" :=
  ⟨by decide,
   (submit_empty_input_validates { initState with cityName := "   " }
      (.resp true (some "x")) ⟨.ok none, .ok none, .ok ()⟩
      (by decide) rfl).2.2.1⟩

/-- Claim C2: for every submit with a non-empty trimmed query, in either
variant, the event trace starts with `setIsLoading(true)` and ends with
`setIsLoading(false)` for every outcome (success, non-2xx, thrown error),
so `isLoading` is true right after submit start and false after the
handler settles, given it was false before. -/
theorem submit_loading_guaranteed_release (s : AppState) (r : ResponseA) (env : EnvB)
    (hne : jsTrim s.cityName ≠ "") (hload : s.isLoading = false) :
    (∃ mid, handleSubmitA s r = .setLoadingEv true :: mid ++ [.setLoadingEv false]) ∧
    (runEvs s ((handleSubmitA s r).take 1)).isLoading = true ∧
    (submitFinalA s r).isLoading = false ∧
    (∃ mid, handleSubmitB s env = .setLoadingEv true :: mid ++ [.setLoadingEv false]) ∧
    (runEvs s ((handleSubmitB s env).take 1)).isLoading = true ∧
    (submitFinalB s env).isLoading = false := by
  refine ⟨?_, ?_, submitFinalA_isLoading_false s r hload, ?_, ?_,
    submitFinalB_isLoading_false s env hload⟩
  · unfold handleSubmitA
    cases r with
    | resp ok facts =>
      cases ok
      · exact ⟨[.setErrorEv "", .getCityCall s.cityName,
          .setErrorEv "Something went wrong"], by simp [hne]⟩
      · exact ⟨[.setErrorEv "", .getCityCall s.cityName, .setFactsEv facts],
          by simp [hne]⟩
    | reject detail =>
      exact ⟨[.setErrorEv "", .getCityCall s.cityName,
        .setErrorEv (jsOr detail "Failed to fetch city facts")], by simp [hne]⟩
  · unfold handleSubmitA
    cases r with
    | resp ok facts => cases ok <;> simp [hne, runEvs, applyEv]
    | reject detail => simp [hne, runEvs, applyEv]
  · unfold handleSubmitB
    rcases env with ⟨g, gm, p⟩
    cases g with
    | error d =>
      exact ⟨[.setErrorEv "", .getCityCall s.cityName,
        .setErrorEv (jsOr d "Failed to fetch city facts")], by simp [hne]⟩
    | ok f =>
      cases hf : factsTruthy f with
      | true =>
        exact ⟨[.setErrorEv "", .getCityCall s.cityName, .setFactsEv f],
          by simp [hne, hf]⟩
      | false =>
        cases gm with
        | error d =>
          exact ⟨[.setErrorEv "", .getCityCall s.cityName, .getGeminiCall s.cityName,
            .setErrorEv (jsOr d "Failed to fetch city facts")], by simp [hne, hf]⟩
        | ok gg =>
          cases p with
          | error d =>
            exact ⟨[.setErrorEv "", .getCityCall s.cityName, .getGeminiCall s.cityName,
              .setFactsEv gg, .postCityCall s.cityName gg,
              .setErrorEv (jsOr d "Failed to fetch city facts")], by simp [hne, hf]⟩
          | ok u =>
            exact ⟨[.setErrorEv "", .getCityCall s.cityName, .getGeminiCall s.cityName,
              .setFactsEv gg, .postCityCall s.cityName gg], by simp [hne, hf]⟩
  · unfold handleSubmitB
    rcases env with ⟨g, gm, p⟩
    cases g <;> simp [hne, runEvs, applyEv]

/-- Concrete run of C2: "Paris" with a rejected fetch still releases the
loading flag. -/
theorem submit_loading_guaranteed_release_witness :
    jsTrim ({ initState with cityName := "Paris" } : AppState).cityName ≠ "" ∧
    (submitFinalA { initState with cityName := "Paris" } (.reject none)).isLoading = false :=
  ⟨by decide,
   (submit_loading_guaranteed_release { initState with cityName := "Paris" }
      (.reject none) ⟨.error none, .ok none, .ok ()⟩
      (by decide) rfl).2.2.1⟩

/-- Claim C3: for every non-empty facts string obtained from a successful
response (variant (a) `response.ok` with a `facts` field, variant (b)
GET resolving with truthy `data.facts`), the rendered facts output is
the string split on the newline character, one paragraph per line, in
the original order. -/
theorem facts_rendered_split_on_newline (s : AppState) (facts : String) (env : EnvB)
    (hne : jsTrim s.cityName ≠ "") (hfacts : facts ≠ "")
    (henv : env.getResult = .ok (some facts)) :
    renderedFacts (submitFinalA s (.resp true (some facts))) = some (jsSplitNl facts) ∧
    renderedFacts (submitFinalB s env) = some (jsSplitNl facts) := by
  have hf : factsTruthy (some facts) = true := by
    simp [factsTruthy, hfacts]
  constructor
  · unfold submitFinalA handleSubmitA
    simp [hne, runEvs, applyEv, renderedFacts, hfacts]
  · unfold submitFinalB handleSubmitB
    simp [hne, henv, hf, runEvs, applyEv, renderedFacts, hfacts]

/-- Concrete run of C3: the spec's "Paris" scenario, two lines. -/
theorem facts_rendered_split_on_newline_witness :
    jsTrim ({ initState with cityName := "Paris" } : AppState).cityName ≠ "" ∧
    ("City of Light\nFamous for the Eiffel Tower" : String) ≠ "" ∧
    renderedFacts (submitFinalA { initState with cityName := "Paris" }
        (.resp true (some "City of Light\nFamous for the Eiffel Tower")))
      = some ["City of Light", "Famous for the Eiffel Tower"] := by
  refine ⟨by decide, by decide, ?_⟩
  have h := (facts_rendered_split_on_newline { initState with cityName := "Paris" }
    "City of Light\nFamous for the Eiffel Tower"
    ⟨.ok (some "City of Light\nFamous for the Eiffel Tower"), .ok none, .ok ()⟩
    (by decide) (by decide) rfl).1
  rw [h]
  decide

/-- Claim C6: no single operation leaves `isLoading` true together with a
non-empty `error`: starting from a non-loading state, `setCityName` and
both variants of `submit()` all finish with `isLoading = false`, so a
freshly set error can only coexist with a cleared loading flag (errors
are set by the validation path before loading starts, or together with
the `finally` reset after loading completes). -/
theorem loading_and_error_never_together (s : AppState) (v : String)
    (r : ResponseA) (env : EnvB) (hload : s.isLoading = false) :
    ¬((setCityName s v).isLoading = true ∧ (setCityName s v).error ≠ "") ∧
    ¬((submitFinalA s r).isLoading = true ∧ (submitFinalA s r).error ≠ "") ∧
    ¬((submitFinalB s env).isLoading = true ∧ (submitFinalB s env).error ≠ "") := by
  refine ⟨?_, ?_, ?_⟩
  · intro ⟨h1, _⟩
    rw [setCityName] at h1
    simp [hload] at h1
  · intro ⟨h1, _⟩
    rw [submitFinalA_isLoading_false s r hload] at h1
    exact Bool.false_ne_true h1
  · intro ⟨h1, _⟩
    rw [submitFinalB_isLoading_false s env hload] at h1
    exact Bool.false_ne_true h1

/-- Concrete run of C6: a failing submit from the initial state ends with
the loading flag down even though an error was set. -/
theorem loading_and_error_never_together_witness :
    ({ initState with cityName := "Paris" } : AppState).isLoading = false ∧
    ¬((submitFinalA { initState with cityName := "Paris" } (.reject none)).isLoading = true ∧
      (submitFinalA { initState with cityName := "Paris" } (.reject none)).error ≠ "") :=
  ⟨rfl,
   (loading_and_error_never_together { initState with cityName := "Paris" } "x"
      (.reject none) ⟨.ok none, .ok none, .ok ()⟩ rfl).2.1⟩

/-- Claim C7: `setCityName` updates only the pending query string; the
prior facts result, the prior error message and the loading flag are
left unchanged. -/
theorem setCityName_only_updates_query (s : AppState) (v : String) :
    (setCityName s v).cityName = v ∧
    (setCityName s v).cityFacts = s.cityFacts ∧
    (setCityName s v).error = s.error ∧
    (setCityName s v).isLoading = s.isLoading := by
  simp [setCityName]

/-- Claim C8: whenever `isLoading` is true, the rendered text input is
disabled as well as the submit button. -/
theorem loading_disables_input_and_button (s : AppState) (h : s.isLoading = true) :
    inputDisabled s = true ∧ buttonDisabled s = true := by
  simp [inputDisabled, buttonDisabled, h]

/-- Concrete run of C8: the loading state disables both controls. -/
theorem loading_disables_input_and_button_witness :
    ({ initState with isLoading := true } : AppState).isLoading = true ∧
    inputDisabled { initState with isLoading := true } = true :=
  ⟨rfl, (loading_disables_input_and_button { initState with isLoading := true } rfl).1⟩

/-- Claim C9: the "About {city}" heading is rendered from the current
input value, not from the submitted name: in any state with truthy
facts, `setCityName v` changes the heading to `About v` while the
rendered facts stay exactly what they were. -/
theorem heading_follows_current_input (s : AppState) (v : String)
    (hfacts : factsTruthy s.cityFacts = true) :
    factsTitle (setCityName s v) = "About " ++ v ∧
    renderedFacts (setCityName s v) = renderedFacts s := by
  constructor
  · simp [factsTitle, setCityName, hfacts]
  · simp [renderedFacts, setCityName]

/-- Concrete run of C9: after fetching facts for "Paris", typing "Tokyo"
retitles the facts to "About Tokyo" while the Paris facts stay shown. -/
theorem heading_follows_current_input_witness :
    factsTruthy ({ initState with cityName := "Paris", cityFacts := some "A\nB" } : AppState).cityFacts = true ∧
    factsTitle (setCityName { initState with cityName := "Paris", cityFacts := some "A\nB" } "Tokyo")
      = "About Tokyo" :=
  ⟨by decide,
   (heading_follows_current_input
      { initState with cityName := "Paris", cityFacts := some "A\nB" } "Tokyo"
      (by decide)).1⟩

/-- Claim C10: in variant (a), a 2xx response whose body has no `facts`
field (or an empty facts string) leaves no error and no facts rendered:
`cityFacts` is assigned the missing/empty value, the error is the empty
string (no banner), and the placeholder is shown. -/
theorem ok_response_without_facts_silent (s : AppState) (f : Option String)
    (hne : jsTrim s.cityName ≠ "") (hf : factsTruthy f = false) :
    (submitFinalA s (.resp true f)).cityFacts = f ∧
    (submitFinalA s (.resp true f)).error = "" ∧
    errorBanner (submitFinalA s (.resp true f)) = none ∧
    renderedFacts (submitFinalA s (.resp true f)) = none := by
  have hfin : submitFinalA s (.resp true f) =
      { s with cityFacts := f, isLoading := false, error := "" } := by
    unfold submitFinalA handleSubmitA
    simp [hne, runEvs, applyEv]
  refine ⟨by rw [hfin], by rw [hfin], ?_, ?_⟩
  · rw [hfin]
    simp [errorBanner]
  · exact renderedFacts_none _ (by rw [hfin]; exact hf)

/-- Concrete run of C10: a 2xx response with no `facts` field. -/
theorem ok_response_without_facts_silent_witness :
    jsTrim ({ initState with cityName := "Paris" } : AppState).cityName ≠ "" ∧
    factsTruthy none = false ∧
    renderedFacts (submitFinalA { initState with cityName := "Paris" } (.resp true none)) = none :=
  ⟨by decide, rfl,
   (ok_response_without_facts_silent { initState with cityName := "Paris" } none
      (by decide) rfl).2.2.2⟩

/-- Counterexample to claim C4: in variant (b), HTTP 500 makes axios
reject; with no `detail` field in the failure payload the error shown is
the catch fallback "Failed to fetch city facts", not "Something went
wrong". -/
theorem http500_fallback_message_cex :
    (submitFinalB { initState with cityName := "Paris" }
        ⟨.error none, .ok none, .ok ()⟩).error = "Failed to fetch city facts" ∧
    (submitFinalB { initState with cityName := "Paris" }
        ⟨.error none, .ok none, .ok ()⟩).error ≠ "Something went wrong" := by
  decide

/-- Claim C4 as amended: on HTTP 500, the single-endpoint variant shows
"Something went wrong" (the `detail` field is never consulted there),
while the two-step variant shows the `detail` field if present and
non-empty and the catch fallback "Failed to fetch city facts"
otherwise; in both variants the facts area still shows the placeholder
when no facts were already displayed. -/
theorem http500_error_message_amended (s : AppState) (f d : Option String) (env : EnvB)
    (hne : jsTrim s.cityName ≠ "") (hpl : factsTruthy s.cityFacts = false)
    (henv : env.getResult = .error d) :
    (submitFinalA s (.resp false f)).error = "Something went wrong" ∧
    renderedFacts (submitFinalA s (.resp false f)) = none ∧
    (submitFinalB s env).error = jsOr d "Failed to fetch city facts" ∧
    renderedFacts (submitFinalB s env) = none := by
  have hfinA : submitFinalA s (.resp false f) =
      { s with isLoading := false, error := "Something went wrong" } := by
    unfold submitFinalA handleSubmitA
    simp [hne, runEvs, applyEv]
  have hfinB : submitFinalB s env =
      { s with isLoading := false, error := jsOr d "Failed to fetch city facts" } := by
    unfold submitFinalB handleSubmitB
    simp [hne, henv, runEvs, applyEv]
  refine ⟨by rw [hfinA], ?_, by rw [hfinB], ?_⟩
  · exact renderedFacts_none _ (by rw [hfinA]; exact hpl)
  · exact renderedFacts_none _ (by rw [hfinB]; exact hpl)

/-- Concrete run of amended C4: a 500 whose payload carries
`detail = "City not found"` surfaces that detail in variant (b). -/
theorem http500_error_message_amended_witness :
    jsTrim ({ initState with cityName := "Paris" } : AppState).cityName ≠ "" ∧
    factsTruthy ({ initState with cityName := "Paris" } : AppState).cityFacts = false ∧
    (submitFinalB { initState with cityName := "Paris" }
        ⟨.error (some "City not found"), .ok none, .ok ()⟩).error
      = jsOr (some "City not found") "Failed to fetch city facts" :=
  ⟨by decide, rfl,
   (http500_error_message_amended { initState with cityName := "Paris" } none
      (some "City not found") ⟨.error (some "City not found"), .ok none, .ok ()⟩
      (by decide) rfl rfl).2.2.1⟩

/-- Counterexample to claim C5: the facts generated by the gemini
fallback are set for rendering before the POST /city write request is
issued, not after. After the first five events of the trace (through
`setCityFacts`) the generated facts already render, yet no POST has
occurred in that prefix. -/
theorem gemini_persist_before_render_cex :
    renderedFacts (runEvs { initState with cityName := "Paris" }
        ((handleSubmitB { initState with cityName := "Paris" }
            ⟨.ok none, .ok (some "G1\nG2"), .ok ()⟩).take 5))
      = some ["G1", "G2"] ∧
    ((handleSubmitB { initState with cityName := "Paris" }
        ⟨.ok none, .ok (some "G1\nG2"), .ok ()⟩).take 5).all (fun e => !e.isPost)
      = true := by
  decide

/-- Claim C5 as amended: in the two-step variant, whenever the initial
GET resolves with no (falsy) facts, the handler performs exactly:
loading on, error cleared, the GET, the gemini generation call, the
`setCityFacts` state update with the generated facts, and only then the
POST /city write request persisting them (so persistence is issued
after, not before, the facts are set for rendering), then loading off;
and the rendered result is identical to a direct hit returning the same
facts. -/
theorem gemini_fallback_generates_persists_renders (s : AppState) (env : EnvB)
    (f g : Option String)
    (hne : jsTrim s.cityName ≠ "") (hget : env.getResult = .ok f)
    (hf : factsTruthy f = false) (hgem : env.geminiResult = .ok g)
    (hpost : env.postResult = .ok ()) :
    handleSubmitB s env =
      [.setLoadingEv true, .setErrorEv "", .getCityCall s.cityName,
       .getGeminiCall s.cityName, .setFactsEv g, .postCityCall s.cityName g,
       .setLoadingEv false] ∧
    renderedFacts (submitFinalB s env) =
      renderedFacts (submitFinalB s ⟨.ok g, env.geminiResult, env.postResult⟩) := by
  have htrace : handleSubmitB s env =
      [.setLoadingEv true, .setErrorEv "", .getCityCall s.cityName,
       .getGeminiCall s.cityName, .setFactsEv g, .postCityCall s.cityName g,
       .setLoadingEv false] := by
    unfold handleSubmitB
    simp [hne, hget, hf, hgem, hpost]
  refine ⟨htrace, ?_⟩
  have hL : submitFinalB s env = { s with cityFacts := g, isLoading := false, error := "" } := by
    unfold submitFinalB
    rw [htrace]
    simp [runEvs, applyEv]
  have hR : submitFinalB s ⟨.ok g, env.geminiResult, env.postResult⟩ =
      { s with cityFacts := g, isLoading := false, error := "" } := by
    unfold submitFinalB handleSubmitB
    by_cases hg : factsTruthy g
    · simp [hne, hg, runEvs, applyEv]
    · simp [hne, hg, hgem, hpost, runEvs, applyEv]
  rw [hL, hR]

/-- Concrete run of amended C5: a miss on "Paris" generates "G1\nG2",
persists it via POST after setting it, and renders it. -/
theorem gemini_fallback_generates_persists_renders_witness :
    jsTrim ({ initState with cityName := "Paris" } : AppState).cityName ≠ "" ∧
    factsTruthy none = false ∧
    handleSubmitB { initState with cityName := "Paris" }
        ⟨.ok none, .ok (some "G1\nG2"), .ok ()⟩ =
      [.setLoadingEv true, .setErrorEv "",
       .getCityCall ({ initState with cityName := "Paris" } : AppState).cityName,
       .getGeminiCall ({ initState with cityName := "Paris" } : AppState).cityName,
       .setFactsEv (some "G1\nG2"),
       .postCityCall ({ initState with cityName := "Paris" } : AppState).cityName (some "G1\nG2"),
       .setLoadingEv false] :=
  ⟨by decide, rfl,
   (gemini_fallback_generates_persists_renders { initState with cityName := "Paris" }
      ⟨.ok none, .ok (some "G1\nG2"), .ok ()⟩ none (some "G1\nG2")
      (by decide) rfl rfl rfl rfl).1⟩

/-- The function `splitNlChars` never returns the empty list (like
JavaScript `split`, which always yields at least one segment). -/
theorem splitNlChars_ne_nil (cs : List Char) : splitNlChars cs ≠ [] := by
  cases cs with
  | nil => simp [splitNlChars]
  | cons c cs =>
    simp only [splitNlChars]
    by_cases h : c = '\n'
    · simp [h]
    · simp only [if_neg h]
      cases splitNlChars cs <;> simp

/-- Soundness of the `split("\n")` embedding: the segments produced by
`splitNlChars` are exactly `List.splitOn '\n'` of the character list. -/
theorem splitNlChars_eq_splitOn (cs : List Char) :
    (splitNlChars cs).map String.data = cs.splitOn '\n' := by
  induction cs with
  | nil => rfl
  | cons c cs ih =>
    rw [List.splitOn] at ih ⊢
    rw [List.splitOnP_cons]
    by_cases h : c = '\n'
    · subst h
      simp [splitNlChars, ih]
    · have hb : (c == '\n') = false := by simpa using h
      rw [hb]
      simp only [Bool.false_eq_true, if_false]
      rw [← ih]
      cases hr : splitNlChars cs with
      | nil => exact absurd hr (splitNlChars_ne_nil cs)
      | cons r rs => simp [splitNlChars, if_neg h, hr]
